import Mathlib

/-!
Shallow embedding of the course-enrollment browser client (`src/App.tsx`).

The component's React state hooks become the fields of `AppState`; the
`localStorage` key `token` becomes an `Option String`; each event handler
(`initializeSession`, `fetchCourses`, `handleLogin`, `handleLogout`,
`handleCourseSelect`, `handleEnrollConfirm`) becomes a pure function from the
current state, the storage, and the outcome of its network calls to an
`OpResult` recording the new state, the new storage, the HTTP requests issued,
the `alert` messages shown, whether an uncaught exception escaped the handler,
and whether a follow-up catalog refresh was triggered.  Rendering
(`renderCourseList`, `renderDashboardContent`, `renderContent`) becomes a pure
function producing a description of the emitted UI elements.

JavaScript runtime values flowing through the component (parsed JSON bodies,
the decoded JWT payload, `courses`) are untyped at runtime, so they are
modelled by the inductive `Json`; property access, truthiness, strict
equality, and string coercion are modelled by `jsObjGet`, `jsTruthy`,
`jsStrictEq`, and `jsToString`.  The browser primitives `atob` (forgiving
base64 decode) and `JSON.parse` are given executable models; JSON numerals
are modelled as integers.
-/

/-- A JavaScript JSON value, as produced by `JSON.parse` or `response.json()`.
Numbers are modelled as integers. -/
inductive Json where
  | null
  | bool (b : Bool)
  | num (n : Int)
  | str (s : String)
  | arr (elems : List Json)
  | obj (fields : List (String × Json))
deriving Repr

/-- `Array.isArray`. -/
def Json.isArr : Json → Bool
  | .arr _ => true
  | _ => false

/-- Property access `j.k` on a JavaScript object: the value of the last
binding of the key (as `JSON.parse` keeps the last of duplicate keys), or
`none` for "undefined" when the key is absent or the value is not an object.
Access on `null` throws in JavaScript and is handled at each use site. -/
def jsObjGet (j : Json) (k : String) : Option Json :=
  match j with
  | Json.obj fields => (Prod.snd) <$> ((fields.filter (fun p => p.1 == k)).getLast?)
  | _ => none

/-- Optional chaining `u?.k`: `null`/`undefined` receivers yield undefined. -/
def jsPropGet (u : Option Json) (k : String) : Option Json :=
  match u with
  | none => none
  | some Json.null => none
  | some j => jsObjGet j k

/-- JavaScript truthiness of a value (`none` is "undefined"). -/
def jsTruthy : Option Json → Bool
  | none => false
  | some Json.null => false
  | some (Json.bool b) => b
  | some (Json.num n) => n != 0
  | some (Json.str s) => s != ""
  | some (Json.arr _) => true
  | some (Json.obj _) => true

/-- Strict equality `===` between two JSON values.  Arrays and objects
compare by reference in JavaScript; two values read back from state are
conservatively modelled as unequal in that case (only primitive comparisons
are exercised by the component: `showConfirmDialog === course.id`). -/
def jsStrictEq : Json → Json → Bool
  | Json.null, Json.null => true
  | Json.bool a, Json.bool b => a == b
  | Json.num a, Json.num b => a == b
  | Json.str a, Json.str b => a == b
  | _, _ => false

/-- Strict equality lifted to possibly-undefined values; `null === undefined`
is false, and two undefineds never flow into the one comparison site. -/
def jsStrictEqOpt : Option Json → Option Json → Bool
  | some a, some b => jsStrictEq a b
  | _, _ => false

mutual

/-- JavaScript ToString coercion of a defined value; arrays join their
elements with commas (null elements coerce to the empty string, as in
`Array.prototype.toString`). -/
def jsToStringJ : Json → String
  | Json.null => "null"
  | Json.bool b => if b then "true" else "false"
  | Json.num n => toString n
  | Json.str s => s
  | Json.arr xs => String.intercalate "," (jsToStringArr xs)
  | Json.obj _ => "[object Object]"

/-- Element-wise coercion for array joining. -/
def jsToStringArr : List Json → List String
  | [] => []
  | Json.null :: rest => "" :: jsToStringArr rest
  | x :: rest => jsToStringJ x :: jsToStringArr rest

end

/-- JavaScript ToString coercion, as applied by `localStorage.setItem` to its
value argument: `undefined` becomes the string "undefined". -/
def jsToString : Option Json → String
  | none => "undefined"
  | some j => jsToStringJ j

/-- Value of one base64 alphabet character. -/
def base64Val (c : Char) : Option Nat :=
  if 'A' ≤ c ∧ c ≤ 'Z' then some (c.toNat - 65)
  else if 'a' ≤ c ∧ c ≤ 'z' then some (c.toNat - 71)
  else if '0' ≤ c ∧ c ≤ '9' then some (c.toNat + 4)
  else if c = '+' then some 62
  else if c = '/' then some 63
  else none

/-- Decode a list of 6-bit groups into bytes, as the forgiving-base64
algorithm does: a final group of two characters contributes one byte, a final
group of three contributes two. -/
def sextetsToBytes : List Nat → List Nat
  | a :: b :: c :: d :: rest =>
      (a * 4 + b / 16) :: (b % 16 * 16 + c / 4) :: (c % 4 * 64 + d) :: sextetsToBytes rest
  | [a, b] => [a * 4 + b / 16]
  | [a, b, c] => [a * 4 + b / 16, b % 16 * 16 + c / 4]
  | _ => []

/-- The browser's `atob`: forgiving-base64 decode.  Strips ASCII whitespace,
strips up to two trailing `=` when the length is a multiple of four, rejects a
remaining length congruent to 1 mod 4, any leftover `=`, and any character
outside the base64 alphabet.  Returns the decoded bytes as a latin-1 string,
or `none` when `atob` would throw. -/
def atob (s : String) : Option String :=
  let cs := s.toList.filter (fun c => !(c == ' ' ∨ c == '\t' ∨ c == '\n' ∨ c == '\r' ∨ c == '\x0c'))
  let cs :=
    if cs.length % 4 == 0 then
      match cs.reverse with
      | '=' :: '=' :: rest => rest.reverse
      | '=' :: rest => rest.reverse
      | _ => cs
    else cs
  if cs.length % 4 == 1 then none
  else
    match cs.mapM base64Val with
    | none => none
    | some vals => some (String.mk ((sextetsToBytes vals).map Char.ofNat))

/-- JSON insignificant whitespace. -/
def isJsonWs (c : Char) : Bool :=
  c == ' ' ∨ c == '\t' ∨ c == '\n' ∨ c == '\r'

/-- Skip JSON whitespace. -/
def skipWs : List Char → List Char
  | c :: rest => if isJsonWs c then skipWs rest else c :: rest
  | [] => []

/-- Value of a hexadecimal digit. -/
def hexVal (c : Char) : Option Nat :=
  if c.isDigit then some (c.toNat - 48)
  else if 'a' ≤ c ∧ c ≤ 'f' then some (c.toNat - 87)
  else if 'A' ≤ c ∧ c ≤ 'F' then some (c.toNat - 55)
  else none

/-- Parse the body of a JSON string after the opening quote, handling the
escape sequences of the JSON grammar; returns the characters and the input
remaining after the closing quote. -/
def parseStrChars : List Char → Option (List Char × List Char)
  | [] => none
  | '"' :: rest => some ([], rest)
  | '\\' :: 'u' :: h1 :: h2 :: h3 :: h4 :: rest => do
      let a ← hexVal h1
      let b ← hexVal h2
      let c ← hexVal h3
      let d ← hexVal h4
      let (cs, r) ← parseStrChars rest
      pure (Char.ofNat (((a * 16 + b) * 16 + c) * 16 + d) :: cs, r)
  | '\\' :: e :: rest => do
      let c ←
        match e with
        | '"' => some '"'
        | '\\' => some '\\'
        | '/' => some '/'
        | 'b' => some '\x08'
        | 'f' => some '\x0c'
        | 'n' => some '\n'
        | 'r' => some '\r'
        | 't' => some '\t'
        | _ => none
      let (cs, r) ← parseStrChars rest
      pure (c :: cs, r)
  | c :: rest =>
      if c.toNat < 32 then none
      else do
        let (cs, r) ← parseStrChars rest
        pure (c :: cs, r)

/-- Parse a JSON natural numeral (no leading zero), returning its value and
the remaining input. -/
def parseNatNum (cs : List Char) : Option (Nat × List Char) :=
  let p := cs.span Char.isDigit
  match p.1 with
  | [] => none
  | '0' :: _ :: _ => none
  | ds => some (ds.foldl (fun a c => a * 10 + (c.toNat - 48)) 0, p.2)

/-- Parse a JSON integer numeral with optional sign.  Fractional and exponent
numerals are outside the modelled (integer) domain of `Json`. -/
def parseNumberFrom (cs : List Char) : Option (Json × List Char) :=
  match cs with
  | '-' :: rest => do
      let (n, r) ← parseNatNum rest
      pure (Json.num (-(n : Int)), r)
  | _ => do
      let (n, r) ← parseNatNum cs
      pure (Json.num (n : Int), r)

mutual

/-- Fuel-indexed recursive-descent parser for one JSON value. -/
def parseValue : Nat → List Char → Option (Json × List Char)
  | 0, _ => none
  | Nat.succ fuel, cs =>
      match skipWs cs with
      | 'n' :: 'u' :: 'l' :: 'l' :: rest => some (Json.null, rest)
      | 't' :: 'r' :: 'u' :: 'e' :: rest => some (Json.bool true, rest)
      | 'f' :: 'a' :: 'l' :: 's' :: 'e' :: rest => some (Json.bool false, rest)
      | '"' :: rest => do
          let (cs', r) ← parseStrChars rest
          pure (Json.str (String.mk cs'), r)
      | '[' :: rest =>
          (match skipWs rest with
           | ']' :: r => some (Json.arr [], r)
           | other => do
               let (es, r) ← parseElems fuel other
               pure (Json.arr es, r))
      | '\x7b' :: rest =>
          (match skipWs rest with
           | '\x7d' :: r => some (Json.obj [], r)
           | other => do
               let (fs, r) ← parseFields fuel other
               pure (Json.obj fs, r))
      | other => parseNumberFrom other

/-- Parse the elements of a non-empty JSON array up to the closing bracket. -/
def parseElems : Nat → List Char → Option (List Json × List Char)
  | 0, _ => none
  | Nat.succ fuel, cs => do
      let (v, r) ← parseValue fuel cs
      match skipWs r with
      | ',' :: r2 => do
          let (es, r3) ← parseElems fuel r2
          pure (v :: es, r3)
      | ']' :: r2 => pure ([v], r2)
      | _ => none

/-- Parse the members of a non-empty JSON object up to the closing brace. -/
def parseFields : Nat → List Char → Option (List (String × Json) × List Char)
  | 0, _ => none
  | Nat.succ fuel, cs => do
      let afterQuote ←
        match skipWs cs with
        | '"' :: rest => some rest
        | _ => none
      let (kcs, r) ← parseStrChars afterQuote
      let afterColon ←
        match skipWs r with
        | ':' :: rest => some rest
        | _ => none
      let (v, r2) ← parseValue fuel afterColon
      match skipWs r2 with
      | ',' :: r3 => do
          let (fs, r4) ← parseFields fuel r3
          pure ((String.mk kcs, v) :: fs, r4)
      | '\x7d' :: r3 => pure ([(String.mk kcs, v)], r3)
      | _ => none

end

/-- The browser's `JSON.parse`, restricted to integer numerals: parses one
value and requires only whitespace to remain; `none` models a thrown
`SyntaxError`. -/
def jsonParse (s : String) : Option Json :=
  let cs := s.toList
  match parseValue (2 * cs.length + 2) cs with
  | some (v, rest) => if skipWs rest == [] then some v else none
  | none => none

/-- Split a character list on a separator, as `String.prototype.split` with a
one-character separator does: the empty string yields one empty field. -/
def splitChars (sep : Char) : List Char → List (List Char)
  | [] => [[]]
  | c :: rest =>
      if c == sep then [] :: splitChars sep rest
      else
        match splitChars sep rest with
        | g :: gs => (c :: g) :: gs
        | [] => [[c]]

/-- `token.split('.')`. -/
def jsSplitDot (s : String) : List String :=
  (splitChars '.' s.toList).map String.mk

/-- `JSON.parse(atob(token.split('.')[1]))`: the client's unverified JWT
payload decode, shared by `initializeSession` and `handleLogin`.  When the
token has no second segment, `atob` receives `undefined` coerced to the
string "undefined" (which is rejected, its length being 9).  `none` models a
thrown exception. -/
def decodeJwtPayload (token : String) : Option Json :=
  let seg := (jsSplitDot token).get? 1
  (atob (seg.getD "undefined")).bind jsonParse

/-- The component's React state hooks (`useState` calls at the top of `App`).
`user`, `selectedCourse`, and the parsed bodies they come from are untyped at
runtime, so they are stored as `Json` values; `courses` is stored as the raw
`Json` value written by `setCourses` so that "is always an array" is a
provable invariant rather than a typing assumption. -/
structure AppState where
  currentView : String
  user : Option Json
  courses : Json
  selectedCourse : Option Json
  isLoading : Bool
  error : Option String
  showConfirmDialog : Option Json
  enrollingCourse : Bool
deriving Repr

/-- Initial state of the hooks. -/
def initialState : AppState :=
  ⟨"login", none, Json.arr [], none, false, none, none, false⟩

/-- One HTTP request issued through `fetch`: method, path (the base URL comes
from runtime configuration and is omitted), the `Authorization` header if
any, and the request body if any. -/
structure Request where
  method : String
  path : String
  authHeader : Option String
  body : Option Json
deriving Repr

/-- Outcome of one `fetch` + body read, as seen by a handler: the promise
rejects (network error), or a response arrives with its `ok` flag and either
an unparseable body (`response.json()` throws) or a parsed `Json` body. -/
inductive HttpResult where
  | networkError
  | response (ok : Bool) (body : Option Json)
deriving Repr

/-- Result of running one handler: the new component state, the new value of
the `token` storage key, the requests issued, the `alert` messages shown,
whether an exception escaped the handler uncaught, and whether the handler
fired a follow-up `fetchCourses`. -/
structure OpResult where
  state : AppState
  storage : Option String
  requests : List Request
  alerts : List String
  threw : Bool
  refreshTriggered : Bool
deriving Repr

/-- `user?.role === 'teacher'`. -/
def userIsTeacher (u : Option Json) : Bool :=
  match jsPropGet u "role" with
  | some (Json.str s) => s == "teacher"
  | _ => false

/-- `user?.role === 'student'`. -/
def userIsStudent (u : Option Json) : Bool :=
  match jsPropGet u "role" with
  | some (Json.str s) => s == "student"
  | _ => false

/-- `localStorage.getItem('token')` interpolated into a template literal:
`null` coerces to the string "null". -/
def tokenTemplate (storage : Option String) : String :=
  match storage with
  | some t => t
  | none => "null"

/-- `Array.isArray(x) ? x : []`, the defensive coercion applied before every
`setCourses` from a network body. -/
def coerceCourses (v : Json) : Json :=
  if v.isArr then v else Json.arr []

/-- The startup effect `initializeSession` (lines 33-52 of `App.tsx`): reads
the `token` key; if present, decodes the JWT payload with no validation and
no try/catch (`threw` records the uncaught rejection when decoding, the
unauthenticated courses GET, or its body read throws), sets the user and
moves to the dashboard, then fetches the courses WITHOUT an Authorization
header and stores the array-coerced body; if absent, stays on `login`.
`setIsLoading(false)` runs only when nothing threw. -/
def initializeSession (st : AppState) (storage : Option String) (resp : HttpResult) : OpResult :=
  match storage with
  | some token =>
      match decodeJwtPayload token with
      | none =>
          ⟨st, storage, [], [], true, false⟩
      | some userData =>
          let st1 := { st with user := some userData, currentView := "dashboard" }
          let req : Request := ⟨"GET", "/api/courses", none, none⟩
          match resp with
          | HttpResult.networkError => ⟨st1, storage, [req], [], true, false⟩
          | HttpResult.response _ none => ⟨st1, storage, [req], [], true, false⟩
          | HttpResult.response _ (some coursesData) =>
              ⟨{ st1 with courses := coerceCourses coursesData, isLoading := false },
                storage, [req], [], false, false⟩
  | none =>
      ⟨{ st with currentView := "login", isLoading := false }, storage, [], [], false, false⟩

/-- `fetchCourses` (lines 54-73): sets `isLoading` and clears `error`, issues
the GET with an `Authorization: Bearer` header built from the stored token,
and — with no check of `response.ok` — stores the array-coerced parsed body.
Only a rejected fetch or a body that fails to parse reaches the catch, which
sets the fixed error message; the finally clears `isLoading` on every path. -/
def fetchCourses (st : AppState) (storage : Option String) (resp : HttpResult) : OpResult :=
  let st1 := { st with isLoading := true, error := none }
  let req : Request :=
    ⟨"GET", "/api/courses", some ("Bearer " ++ tokenTemplate storage), none⟩
  match resp with
  | HttpResult.networkError =>
      ⟨{ st1 with error := some "Failed to load courses", isLoading := false },
        storage, [req], [], false, false⟩
  | HttpResult.response _ none =>
      ⟨{ st1 with error := some "Failed to load courses", isLoading := false },
        storage, [req], [], false, false⟩
  | HttpResult.response _ (some data) =>
      ⟨{ st1 with courses := coerceCourses data, isLoading := false },
        storage, [req], [], false, false⟩

/-- `handleLogin` (lines 81-101): POSTs the credentials, parses the body with
no check of `response.ok`, and immediately persists `data.token` through
`localStorage.setItem` — which string-coerces a missing field to "undefined"
— BEFORE attempting to decode the payload.  Any throw (network error,
unparseable body, property access on a `null` body, `.split` on a non-string
token, or a failing decode) lands in the catch, which only alerts; writes
already made to storage stay. -/
def handleLogin (st : AppState) (storage : Option String)
    (username password : String) (resp : HttpResult) : OpResult :=
  let req : Request :=
    ⟨"POST", "/api/login", none,
      some (Json.obj [("username", Json.str username), ("password", Json.str password)])⟩
  match resp with
  | HttpResult.networkError => ⟨st, storage, [req], ["Login failed"], false, false⟩
  | HttpResult.response _ none => ⟨st, storage, [req], ["Login failed"], false, false⟩
  | HttpResult.response _ (some data) =>
      match data with
      | Json.null =>
          ⟨st, storage, [req], ["Login failed"], false, false⟩
      | _ =>
          let tokenVal := jsObjGet data "token"
          let storage1 := some (jsToString tokenVal)
          match tokenVal with
          | some (Json.str tok) =>
              (match decodeJwtPayload tok with
               | some userData =>
                   ⟨{ st with user := some userData, currentView := "dashboard" },
                     storage1, [req], [], false, false⟩
               | none =>
                   ⟨st, storage1, [req], ["Login failed"], false, false⟩)
          | _ =>
              ⟨st, storage1, [req], ["Login failed"], false, false⟩

/-- `handleLogout` (lines 103-109): removes the `token` key, clears the user
and the selected course, empties the catalog, and returns to `login`.  It
issues no request. -/
def handleLogout (st : AppState) (_storage : Option String) : OpResult :=
  ⟨{ st with
      user := none
      currentView := "login"
      courses := Json.arr []
      selectedCourse := none },
    none, [], [], false, false⟩

/-- `handleCourseSelect` (lines 111-114): stores the chosen course and moves
to the role-dependent detail view. -/
def handleCourseSelect (st : AppState) (course : Json) : AppState :=
  { st with
      selectedCourse := some course
      currentView := if userIsTeacher st.user then "teacherCourse" else "studentCourse" }

/-- The back button of both detail views (lines 204 and 217): its only
effect is `setSelectedCourse(null)` — `currentView` is NOT written. -/
def handleBack (st : AppState) : AppState :=
  { st with selectedCourse := none }

/-- The enroll button's click (line 177): `setShowConfirmDialog(course.id)`.
A disabled button does not fire, so this runs only when `enrollingCourse` is
false. -/
def clickEnroll (st : AppState) (course : Json) : AppState :=
  if st.enrollingCourse then st
  else { st with showConfirmDialog := jsObjGet course "id" }

/-- `handleEnrollConfirm` (lines 116-141): sets the in-flight flag, POSTs the
course id with a Bearer header, and branches on `response.ok` ONLY: success
alerts and fires `fetchCourses` (not awaited), any non-ok status or thrown
fetch alerts failure; the finally clears `enrollingCourse` and
`showConfirmDialog` on every path.  The response body is never read. -/
def handleEnrollConfirm (st : AppState) (storage : Option String)
    (courseId : Json) (resp : HttpResult) : OpResult :=
  let st1 := { st with enrollingCourse := true }
  let req : Request :=
    ⟨"POST", "/api/enroll", some ("Bearer " ++ tokenTemplate storage),
      some (Json.obj [("course_id", courseId)])⟩
  let finalize : AppState → AppState :=
    fun s => { s with enrollingCourse := false, showConfirmDialog := none }
  match resp with
  | HttpResult.networkError =>
      ⟨finalize st1, storage, [req], ["Failed to enroll in course"], false, false⟩
  | HttpResult.response ok _ =>
      if ok then
        ⟨finalize st1, storage, [req], ["Successfully enrolled in the course!"], false, true⟩
      else
        ⟨finalize st1, storage, [req], ["Failed to enroll in course"], false, false⟩

/-- `setCurrentView('register')` from the login screen. -/
def switchToRegister (st : AppState) : AppState :=
  { st with currentView := "register" }

/-- `setCurrentView('login')` from the register screen. -/
def switchToLogin (st : AppState) : AppState :=
  { st with currentView := "login" }

/-- A UI element emitted by `renderCourseList` (lines 143-196), keeping the
decision-relevant attributes: which button it is, which course it belongs to,
and — for the enroll button — its `disabled` attribute and label. -/
inductive UiElem where
  | noCoursesMsg
  | courseTitle (t : Option Json)
  | courseDesc (d : Option Json)
  | instructorLine (name : Option Json)
  | manageButton (course : Json)
  | viewButton (course : Json)
  | enrollButton (course : Json) (disabled : Bool) (label : String)
  | enrolledBadge
deriving Repr

/-- Whether an element is an enroll button. -/
def UiElem.isEnroll : UiElem → Bool
  | UiElem.enrollButton _ _ _ => true
  | _ => false

/-- The `disabled` attribute of an enroll button (`false` for any other
element). -/
def UiElem.disabledAttr : UiElem → Bool
  | UiElem.enrollButton _ d _ => d
  | _ => false

/-- One course card of `renderCourseList`: title and description, an
instructor line for students when `course.teacher_name` is truthy, then
either the teacher's manage button, or the student's view button followed by
an enroll button — whose `disabled` attribute is the single shared
`enrollingCourse` flag — when `course.enrolled` is falsy, or the enrolled
badge otherwise. -/
def renderCard (st : AppState) (course : Json) : List UiElem :=
  [UiElem.courseTitle (jsObjGet course "title"),
   UiElem.courseDesc (jsObjGet course "description")]
  ++ (if userIsStudent st.user ∧ jsTruthy (jsObjGet course "teacher_name") then
        [UiElem.instructorLine (jsObjGet course "teacher_name")]
      else [])
  ++ (if userIsTeacher st.user then
        [UiElem.manageButton course]
      else
        [UiElem.viewButton course]
        ++ (if !jsTruthy (jsObjGet course "enrolled") then
              [UiElem.enrollButton course st.enrollingCourse
                (if st.enrollingCourse ∧
                    jsStrictEqOpt st.showConfirmDialog (jsObjGet course "id") then
                  "Enrolling..."
                 else "Enroll")]
            else [UiElem.enrolledBadge]))

/-- `renderCourseList`: the no-courses message when the array is empty, else
the concatenation of one card per course.  A non-array `courses` value would
throw at `courses.map` (`none`); it is unreachable by the catalog invariant. -/
def renderCourseList (st : AppState) : Option (List UiElem) :=
  match st.courses with
  | Json.arr cs =>
      some (if cs.length == 0 then [UiElem.noCoursesMsg] else cs.flatMap (renderCard st))
  | _ => none

/-- The screen actually displayed, as `renderContent` (lines 246-265)
dispatches it: the `login` and `register` views render their forms; every
other `currentView` value falls through to `renderDashboardContent` (lines
198-244), which shows the role-dependent course detail when `selectedCourse`
is set and the dashboard otherwise. -/
def renderedView (st : AppState) : String :=
  if st.currentView == "login" then "login"
  else if st.currentView == "register" then "register"
  else
    match st.selectedCourse with
    | some _ => if userIsTeacher st.user then "teacherCourse" else "studentCourse"
    | none => "dashboard"

/-- One user- or network-driven transition of the client: each constructor
runs one handler with arbitrary external inputs (network outcomes, form
contents, the clicked course). -/
inductive Step : AppState × Option String → AppState × Option String → Prop
  | init (st : AppState) (sto : Option String) (resp : HttpResult) :
      Step (st, sto)
        ((initializeSession st sto resp).state, (initializeSession st sto resp).storage)
  | fetch (st : AppState) (sto : Option String) (resp : HttpResult) :
      Step (st, sto)
        ((fetchCourses st sto resp).state, (fetchCourses st sto resp).storage)
  | login (st : AppState) (sto : Option String) (u p : String) (resp : HttpResult) :
      Step (st, sto)
        ((handleLogin st sto u p resp).state, (handleLogin st sto u p resp).storage)
  | logout (st : AppState) (sto : Option String) :
      Step (st, sto) ((handleLogout st sto).state, (handleLogout st sto).storage)
  | select (st : AppState) (sto : Option String) (course : Json) :
      Step (st, sto) (handleCourseSelect st course, sto)
  | back (st : AppState) (sto : Option String) :
      Step (st, sto) (handleBack st, sto)
  | confirmDialog (st : AppState) (sto : Option String) (course : Json) :
      Step (st, sto) (clickEnroll st course, sto)
  | enroll (st : AppState) (sto : Option String) (cid : Json) (resp : HttpResult) :
      Step (st, sto)
        ((handleEnrollConfirm st sto cid resp).state, (handleEnrollConfirm st sto cid resp).storage)
  | toRegister (st : AppState) (sto : Option String) :
      Step (st, sto) (switchToRegister st, sto)
  | toLogin (st : AppState) (sto : Option String) :
      Step (st, sto) (switchToLogin st, sto)

/-- States reachable from the initial hook state with a given initial value
of the `token` storage key. -/
def Reachable (sto0 : Option String) (w : AppState × Option String) : Prop :=
  Relation.ReflTransGen Step (initialState, sto0) w

/-- C4: for every enrollment attempt, whatever the outcome (success, non-2xx
status, or a thrown fetch), the `enrollingCourse` flag and the
pending-confirmation marker are cleared by the finally block; and when the
enroll POST returns a non-2xx status, the failure alert is shown and no
catalog refresh is fired. -/
theorem c4_enroll_clears_flags (st : AppState) (sto : Option String) (cid : Json) :
    (∀ resp : HttpResult,
      (handleEnrollConfirm st sto cid resp).state.enrollingCourse = false ∧
      (handleEnrollConfirm st sto cid resp).state.showConfirmDialog = none) ∧
    (∀ b : Option Json,
      (handleEnrollConfirm st sto cid (HttpResult.response false b)).alerts =
        ["Failed to enroll in course"] ∧
      (handleEnrollConfirm st sto cid (HttpResult.response false b)).refreshTriggered = false) := by
  constructor
  · intro resp
    cases resp with
    | networkError => exact ⟨rfl, rfl⟩
    | response ok b => cases ok <;> exact ⟨rfl, rfl⟩
  · intro b
    exact ⟨rfl, rfl⟩

/-- Witness for C4 at a concrete failed enrollment for course id 7. -/
theorem c4_enroll_clears_flags_witness :
    (handleEnrollConfirm initialState (some "tok") (Json.num 7)
        (HttpResult.response false none)).alerts = ["Failed to enroll in course"] ∧
    (handleEnrollConfirm initialState (some "tok") (Json.num 7)
        (HttpResult.response false none)).refreshTriggered = false :=
  (c4_enroll_clears_flags initialState (some "tok") (Json.num 7)).2 none

/-- C5: after `handleLogout`, from any prior state: the user is null, the
persisted token key is deleted, the current and rendered views are `login`,
the selected course is null, the catalog is the empty array, and no request
is issued. -/
theorem c5_logout_resets (st : AppState) (sto : Option String) :
    (handleLogout st sto).state.user = none ∧
    (handleLogout st sto).storage = none ∧
    (handleLogout st sto).state.currentView = "login" ∧
    renderedView (handleLogout st sto).state = "login" ∧
    (handleLogout st sto).state.selectedCourse = none ∧
    (handleLogout st sto).state.courses = Json.arr [] ∧
    (handleLogout st sto).requests = [] :=
  ⟨rfl, rfl, rfl, rfl, rfl, rfl, rfl⟩

/-- Witness for C5 from a concrete non-trivial prior state. -/
theorem c5_logout_resets_witness :
    (handleLogout { initialState with
        currentView := "teacherCourse"
        user := some (Json.obj [("role", Json.str "teacher")])
        courses := Json.arr [Json.obj [("id", Json.num 3)]]
        selectedCourse := some (Json.obj [("id", Json.num 3)]) } (some "tok")).state.user = none ∧
    (handleLogout { initialState with
        currentView := "teacherCourse"
        user := some (Json.obj [("role", Json.str "teacher")])
        courses := Json.arr [Json.obj [("id", Json.num 3)]]
        selectedCourse := some (Json.obj [("id", Json.num 3)]) } (some "tok")).storage = none ∧
    (handleLogout { initialState with
        currentView := "teacherCourse"
        user := some (Json.obj [("role", Json.str "teacher")])
        courses := Json.arr [Json.obj [("id", Json.num 3)]]
        selectedCourse := some (Json.obj [("id", Json.num 3)]) } (some "tok")).state.currentView = "login" ∧
    renderedView (handleLogout { initialState with
        currentView := "teacherCourse"
        user := some (Json.obj [("role", Json.str "teacher")])
        courses := Json.arr [Json.obj [("id", Json.num 3)]]
        selectedCourse := some (Json.obj [("id", Json.num 3)]) } (some "tok")).state = "login" ∧
    (handleLogout { initialState with
        currentView := "teacherCourse"
        user := some (Json.obj [("role", Json.str "teacher")])
        courses := Json.arr [Json.obj [("id", Json.num 3)]]
        selectedCourse := some (Json.obj [("id", Json.num 3)]) } (some "tok")).state.selectedCourse = none ∧
    (handleLogout { initialState with
        currentView := "teacherCourse"
        user := some (Json.obj [("role", Json.str "teacher")])
        courses := Json.arr [Json.obj [("id", Json.num 3)]]
        selectedCourse := some (Json.obj [("id", Json.num 3)]) } (some "tok")).state.courses = Json.arr [] ∧
    (handleLogout { initialState with
        currentView := "teacherCourse"
        user := some (Json.obj [("role", Json.str "teacher")])
        courses := Json.arr [Json.obj [("id", Json.num 3)]]
        selectedCourse := some (Json.obj [("id", Json.num 3)]) } (some "tok")).requests = [] :=
  c5_logout_resets _ (some "tok")

/-- C6: startup restoration with the persisted credential `x.%.y` — whose
middle segment is not base64 — throws an uncaught exception (there is no
guard producing a DecodeError), leaving the state untouched and issuing no
request; and with no persisted credential, restoration yields no user and the
view stays `login` without throwing. -/
theorem c6_restore_malformed_throws (resp : HttpResult) :
    (initializeSession initialState (some "x.%.y") resp).threw = true ∧
    (initializeSession initialState (some "x.%.y") resp).state = initialState ∧
    (initializeSession initialState (some "x.%.y") resp).requests = [] ∧
    (initializeSession initialState none resp).threw = false ∧
    (initializeSession initialState none resp).state.user = none ∧
    (initializeSession initialState none resp).state.currentView = "login" :=
  ⟨rfl, rfl, rfl, rfl, rfl, rfl⟩

/-- Witness for C6 at a concrete network outcome. -/
theorem c6_restore_malformed_throws_witness :
    (initializeSession initialState (some "x.%.y") HttpResult.networkError).threw = true ∧
    (initializeSession initialState (some "x.%.y") HttpResult.networkError).state = initialState ∧
    (initializeSession initialState (some "x.%.y") HttpResult.networkError).requests = [] ∧
    (initializeSession initialState none HttpResult.networkError).threw = false ∧
    (initializeSession initialState none HttpResult.networkError).state.user = none ∧
    (initializeSession initialState none HttpResult.networkError).state.currentView = "login" :=
  c6_restore_malformed_throws HttpResult.networkError

/-- C7: when a persisted token decodes successfully, the startup catalog GET
issued by `initializeSession` carries NO Authorization header, while every
`fetchCourses` refresh issued with a stored credential carries it as a Bearer
Authorization header. -/
theorem c7_startup_fetch_unauthenticated (st s : AppState) (t cred : String) (u : Json)
    (resp r : HttpResult) (hdec : decodeJwtPayload t = some u) :
    (initializeSession st (some t) resp).requests =
      [⟨"GET", "/api/courses", none, none⟩] ∧
    (fetchCourses s (some cred) r).requests =
      [⟨"GET", "/api/courses", some ("Bearer " ++ cred), none⟩] := by
  constructor
  · simp only [initializeSession, hdec]
    cases resp with
    | networkError => rfl
    | response ok b => cases b <;> rfl
  · cases r with
    | networkError => rfl
    | response ok b => cases b <;> rfl

/-- Witness for C7 with the decodable token `x.MQ==.y` and a concrete
refresh. -/
theorem c7_startup_fetch_unauthenticated_witness :
    (initializeSession initialState (some "x.MQ==.y") HttpResult.networkError).requests =
      [⟨"GET", "/api/courses", none, none⟩] ∧
    (fetchCourses initialState (some "x.MQ==.y") HttpResult.networkError).requests =
      [⟨"GET", "/api/courses", some ("Bearer " ++ "x.MQ==.y"), none⟩] :=
  c7_startup_fetch_unauthenticated initialState initialState "x.MQ==.y" "x.MQ==.y"
    (Json.num 1) HttpResult.networkError HttpResult.networkError rfl

/-- C8: a courses response whose parsed body is not an array leaves the
catalog as the empty array without an exception, both on a `fetchCourses`
refresh and on the startup fetch of `initializeSession`. -/
theorem c8_nonarray_body_coerced (st : AppState) (sto : Option String) (ok1 ok2 : Bool)
    (v w : Json) (t : String) (u : Json)
    (hv : v.isArr = false) (hw : w.isArr = false)
    (hdec : decodeJwtPayload t = some u) :
    (fetchCourses st sto (HttpResult.response ok1 (some v))).state.courses = Json.arr [] ∧
    (initializeSession st (some t) (HttpResult.response ok2 (some w))).state.courses =
      Json.arr [] ∧
    (initializeSession st (some t) (HttpResult.response ok2 (some w))).threw = false := by
  refine ⟨?_, ?_, ?_⟩
  · simp [fetchCourses, coerceCourses, hv]
  · simp [initializeSession, hdec, coerceCourses, hw]
  · simp [initializeSession, hdec]

/-- Witness for C8 with an error-object body on both paths. -/
theorem c8_nonarray_body_coerced_witness :
    (fetchCourses initialState (some "tok")
        (HttpResult.response true (some (Json.obj [("error", Json.str "boom")])))).state.courses =
      Json.arr [] ∧
    (initializeSession initialState (some "x.MQ==.y")
        (HttpResult.response true (some (Json.obj [("error", Json.str "boom")])))).state.courses =
      Json.arr [] ∧
    (initializeSession initialState (some "x.MQ==.y")
        (HttpResult.response true (some (Json.obj [("error", Json.str "boom")])))).threw = false :=
  c8_nonarray_body_coerced initialState (some "tok") true true
    (Json.obj [("error", Json.str "boom")]) (Json.obj [("error", Json.str "boom")])
    "x.MQ==.y" (Json.num 1) rfl rfl rfl

/-- C1 counterexample: a login attempt against a non-success response whose
JSON body has no `token` field DOES change the stored token key —
`localStorage.setItem('token', data.token)` runs before the decode throws,
coercing the missing field to the string "undefined" — even though the
failure alert is shown.  The stored key moves from `oldtoken` to
`undefined`. -/
theorem c1_counterexample :
    (handleLogin initialState (some "oldtoken") "alice" "x"
        (HttpResult.response false
          (some (Json.obj [("error", Json.str "bad credentials")])))).alerts =
      ["Login failed"] ∧
    (handleLogin initialState (some "oldtoken") "alice" "x"
        (HttpResult.response false
          (some (Json.obj [("error", Json.str "bad credentials")])))).storage =
      some "undefined" ∧
    (handleLogin initialState (some "oldtoken") "alice" "x"
        (HttpResult.response false
          (some (Json.obj [("error", Json.str "bad credentials")])))).storage ≠
      some "oldtoken" := by
  refine ⟨rfl, rfl, ?_⟩
  intro h
  exact absurd (Option.some.inj h) (by decide)

/-- C1 as amended: on a network error or a response whose body is not
parseable JSON, login fails with the alert and both the state and the stored
token key are unchanged; but on any response (success or not) whose parsed
body is an object without a string `token` field, the failure alert is shown
AND the token key is overwritten with the string coercion of the missing
field, "undefined". -/
theorem c1_login_failure_persistence (st : AppState) (sto : Option String)
    (u p : String) (ok : Bool) (data : Json)
    (hnn : data ≠ Json.null) (htok : jsObjGet data "token" = none) :
    (handleLogin st sto u p HttpResult.networkError).storage = sto ∧
    (handleLogin st sto u p HttpResult.networkError).alerts = ["Login failed"] ∧
    (handleLogin st sto u p HttpResult.networkError).state = st ∧
    (handleLogin st sto u p (HttpResult.response ok none)).storage = sto ∧
    (handleLogin st sto u p (HttpResult.response ok none)).alerts = ["Login failed"] ∧
    (handleLogin st sto u p (HttpResult.response ok none)).state = st ∧
    (handleLogin st sto u p (HttpResult.response ok (some data))).storage = some "undefined" ∧
    (handleLogin st sto u p (HttpResult.response ok (some data))).alerts = ["Login failed"] := by
  refine ⟨rfl, rfl, rfl, rfl, rfl, rfl, ?_, ?_⟩ <;>
    cases data <;>
      first
        | exact absurd rfl hnn
        | rfl
        | simp [handleLogin, htok, jsToString]

/-- Witness for C1 at a concrete body without a `token` field. -/
theorem c1_login_failure_persistence_witness :
    (handleLogin initialState (some "old") "u" "p" HttpResult.networkError).storage =
      some "old" ∧
    (handleLogin initialState (some "old") "u" "p" HttpResult.networkError).alerts =
      ["Login failed"] ∧
    (handleLogin initialState (some "old") "u" "p" HttpResult.networkError).state =
      initialState ∧
    (handleLogin initialState (some "old") "u" "p"
        (HttpResult.response false none)).storage = some "old" ∧
    (handleLogin initialState (some "old") "u" "p"
        (HttpResult.response false none)).alerts = ["Login failed"] ∧
    (handleLogin initialState (some "old") "u" "p"
        (HttpResult.response false none)).state = initialState ∧
    (handleLogin initialState (some "old") "u" "p"
        (HttpResult.response false (some (Json.obj [("msg", Json.num 1)])))).storage =
      some "undefined" ∧
    (handleLogin initialState (some "old") "u" "p"
        (HttpResult.response false (some (Json.obj [("msg", Json.num 1)])))).alerts =
      ["Login failed"] :=
  c1_login_failure_persistence initialState (some "old") "u" "p" false
    (Json.obj [("msg", Json.num 1)]) (fun h => Json.noConfusion h) rfl

/-- C2 counterexample: a refresh answered by a non-success response carrying
a parseable JSON error object sets NO error message and REPLACES the
previously cached courses with the empty array — `fetchCourses` never
inspects `response.ok`, so the stale-but-available policy fails for
non-success statuses. -/
theorem c2_counterexample :
    (fetchCourses
        { initialState with courses := Json.arr [Json.obj [("id", Json.num 1)]] }
        (some "tok")
        (HttpResult.response false
          (some (Json.obj [("message", Json.str "Internal Server Error")])))).state.error =
      none ∧
    (fetchCourses
        { initialState with courses := Json.arr [Json.obj [("id", Json.num 1)]] }
        (some "tok")
        (HttpResult.response false
          (some (Json.obj [("message", Json.str "Internal Server Error")])))).state.courses =
      Json.arr [] ∧
    Json.arr ([] : List Json) ≠ Json.arr [Json.obj [("id", Json.num 1)]] := by
  refine ⟨rfl, rfl, ?_⟩
  intro h
  exact List.cons_ne_nil _ _ (Json.arr.inj h).symm

/-- C2 as amended: for every refresh, on a network error or a response whose
body fails to parse, `error` is set to the fixed message "Failed to load
courses" and `courses` keeps its previous value; on any response with a
parseable body — success or non-success status alike — `error` stays null
and `courses` is replaced by the array-coerced body; and `isLoading` is false
once the refresh settles, in every case. -/
theorem c2_refresh_error_handling (st : AppState) (sto : Option String) :
    ((fetchCourses st sto HttpResult.networkError).state.error =
        some "Failed to load courses" ∧
      (fetchCourses st sto HttpResult.networkError).state.courses = st.courses) ∧
    (∀ ok : Bool,
      (fetchCourses st sto (HttpResult.response ok none)).state.error =
        some "Failed to load courses" ∧
      (fetchCourses st sto (HttpResult.response ok none)).state.courses = st.courses) ∧
    (∀ (ok : Bool) (data : Json),
      (fetchCourses st sto (HttpResult.response ok (some data))).state.error = none ∧
      (fetchCourses st sto (HttpResult.response ok (some data))).state.courses =
        coerceCourses data) ∧
    (∀ resp : HttpResult, (fetchCourses st sto resp).state.isLoading = false) := by
  refine ⟨⟨rfl, rfl⟩, fun ok => ⟨rfl, rfl⟩, fun ok data => ⟨rfl, rfl⟩, fun resp => ?_⟩
  cases resp with
  | networkError => rfl
  | response ok b => cases b <;> rfl

/-- Witness for C2 at a concrete state and network error. -/
theorem c2_refresh_error_handling_witness :
    ((fetchCourses { initialState with courses := Json.arr [Json.num 5] } (some "tok")
          HttpResult.networkError).state.error = some "Failed to load courses" ∧
      (fetchCourses { initialState with courses := Json.arr [Json.num 5] } (some "tok")
          HttpResult.networkError).state.courses =
        ({ initialState with courses := Json.arr [Json.num 5] } : AppState).courses) ∧
    (∀ ok : Bool,
      (fetchCourses { initialState with courses := Json.arr [Json.num 5] } (some "tok")
          (HttpResult.response ok none)).state.error = some "Failed to load courses" ∧
      (fetchCourses { initialState with courses := Json.arr [Json.num 5] } (some "tok")
          (HttpResult.response ok none)).state.courses =
        ({ initialState with courses := Json.arr [Json.num 5] } : AppState).courses) ∧
    (∀ (ok : Bool) (data : Json),
      (fetchCourses { initialState with courses := Json.arr [Json.num 5] } (some "tok")
          (HttpResult.response ok (some data))).state.error = none ∧
      (fetchCourses { initialState with courses := Json.arr [Json.num 5] } (some "tok")
          (HttpResult.response ok (some data))).state.courses = coerceCourses data) ∧
    (∀ resp : HttpResult,
      (fetchCourses { initialState with courses := Json.arr [Json.num 5] } (some "tok")
          resp).state.isLoading = false) :=
  c2_refresh_error_handling { initialState with courses := Json.arr [Json.num 5] } (some "tok")

/-- C3 counterexample: from a teacher's course-detail state, the back action
clears the selected course but leaves the view state at `teacherCourse` —
`setCurrentView` is never called — so the claimed invariant "SelectedCourse
null implies the view is not teacherCourse/studentCourse" fails at the
resulting state. -/
theorem c3_counterexample :
    (handleBack { initialState with
        currentView := "teacherCourse"
        user := some (Json.obj [("role", Json.str "teacher")])
        selectedCourse := some (Json.obj [("id", Json.num 1)]) }).selectedCourse = none ∧
    (handleBack { initialState with
        currentView := "teacherCourse"
        user := some (Json.obj [("role", Json.str "teacher")])
        selectedCourse := some (Json.obj [("id", Json.num 1)]) }).currentView =
      "teacherCourse" ∧
    "teacherCourse" ≠ "dashboard" := by
  exact ⟨rfl, rfl, by decide⟩

/-- C3 as amended: the back action only clears the selected course and leaves
the `currentView` string untouched; nevertheless, outside the `login` and
`register` screens the RENDERED view — which `renderContent` dispatches on
`selectedCourse`, not on the view string — becomes the dashboard, and
whenever the selected course is null the rendered view is never a
course-detail view. -/
theorem c3_back_clears_selection (st s : AppState)
    (h1 : st.currentView ≠ "login") (h2 : st.currentView ≠ "register")
    (hs : s.selectedCourse = none) :
    (handleBack st).selectedCourse = none ∧
    (handleBack st).currentView = st.currentView ∧
    renderedView (handleBack st) = "dashboard" ∧
    renderedView s ≠ "teacherCourse" ∧ renderedView s ≠ "studentCourse" := by
  refine ⟨rfl, rfl, ?_, ?_, ?_⟩
  · unfold renderedView handleBack
    simp only [beq_iff_eq, h1, h2, if_false]
  all_goals
    unfold renderedView
    rw [hs]
    split_ifs <;> decide

/-- Witness for C3 from a concrete student course-detail state. -/
theorem c3_back_clears_selection_witness :
    (handleBack { initialState with
        currentView := "studentCourse"
        user := some (Json.obj [("role", Json.str "student")])
        selectedCourse := some (Json.obj [("id", Json.num 2)]) }).selectedCourse = none ∧
    (handleBack { initialState with
        currentView := "studentCourse"
        user := some (Json.obj [("role", Json.str "student")])
        selectedCourse := some (Json.obj [("id", Json.num 2)]) }).currentView =
      ({ initialState with
        currentView := "studentCourse"
        user := some (Json.obj [("role", Json.str "student")])
        selectedCourse := some (Json.obj [("id", Json.num 2)]) } : AppState).currentView ∧
    renderedView (handleBack { initialState with
        currentView := "studentCourse"
        user := some (Json.obj [("role", Json.str "student")])
        selectedCourse := some (Json.obj [("id", Json.num 2)]) }) = "dashboard" ∧
    renderedView initialState ≠ "teacherCourse" ∧
    renderedView initialState ≠ "studentCourse" :=
  c3_back_clears_selection { initialState with
      currentView := "studentCourse"
      user := some (Json.obj [("role", Json.str "student")])
      selectedCourse := some (Json.obj [("id", Json.num 2)]) }
    initialState (by decide) (by decide) rfl

/-- Every element of one rendered course card either is not an enroll button
or carries the shared `enrollingCourse` flag as its `disabled` attribute. -/
theorem renderCard_disabled_inventory (st : AppState) (c : Json) :
    ((renderCard st c).all
      (fun e => !e.isEnroll || (e.disabledAttr == st.enrollingCourse))) = true := by
  unfold renderCard
  split_ifs <;>
    simp [List.all_append, UiElem.isEnroll, UiElem.disabledAttr]

/-- C9: while `enrollingCourse` is true, EVERY enroll button rendered by
`renderCourseList` — one per not-yet-enrolled course card, not only the card
whose enrollment is in flight — has `disabled` set, so clicking any of them
is a no-op and no second enrollment request can be started. -/
theorem c9_all_enroll_buttons_disabled (st : AppState) (elems : List UiElem) (e : UiElem)
    (hflag : st.enrollingCourse = true)
    (hr : renderCourseList st = some elems)
    (he : e ∈ elems) (hbtn : e.isEnroll = true) :
    e.disabledAttr = true := by
  unfold renderCourseList at hr
  rcases hcs : st.courses with _ | _ | _ | _ | cs | _ <;> rw [hcs] at hr <;>
    try exact Option.noConfusion hr
  rw [Option.some.injEq] at hr
  subst hr
  rcases hlen : cs.length == 0 with _ | _
  · rw [if_neg (by simp [hlen])] at he
    rcases List.mem_flatMap.mp he with ⟨c, _, hcard⟩
    have hall := renderCard_disabled_inventory st c
    rw [List.all_eq_true] at hall
    have := hall e hcard
    rw [hbtn, hflag] at this
    simpa using this
  · rw [if_pos (by simp [hlen])] at he
    rcases List.mem_singleton.mp he with rfl
    exact absurd hbtn (by simp [UiElem.isEnroll])

/-- Witness for C9: a student dashboard with one unenrolled course while an
enrollment is in flight renders its enroll button disabled. -/
theorem c9_all_enroll_buttons_disabled_witness :
    (UiElem.enrollButton (Json.obj [("id", Json.num 7)]) true "Enrolling...").disabledAttr =
      true :=
  c9_all_enroll_buttons_disabled
    { initialState with
        user := some (Json.obj [("role", Json.str "student")])
        courses := Json.arr [Json.obj [("id", Json.num 7)]]
        showConfirmDialog := some (Json.num 7)
        enrollingCourse := true }
    [UiElem.courseTitle none, UiElem.courseDesc none,
      UiElem.viewButton (Json.obj [("id", Json.num 7)]),
      UiElem.enrollButton (Json.obj [("id", Json.num 7)]) true "Enrolling..."]
    (UiElem.enrollButton (Json.obj [("id", Json.num 7)]) true "Enrolling...")
    rfl rfl (by simp) rfl

/-- The defensive coercion always yields an array. -/
theorem coerceCourses_isArr (v : Json) : (coerceCourses v).isArr = true := by
  unfold coerceCourses
  split
  · next h => exact h
  · rfl

/-- `initializeSession` keeps the catalog an array. -/
theorem initializeSession_courses_isArr (st : AppState) (sto : Option String)
    (resp : HttpResult) (h : st.courses.isArr = true) :
    (initializeSession st sto resp).state.courses.isArr = true := by
  unfold initializeSession
  repeat' split
  all_goals first | exact h | exact coerceCourses_isArr _

/-- `fetchCourses` keeps the catalog an array. -/
theorem fetchCourses_courses_isArr (st : AppState) (sto : Option String)
    (resp : HttpResult) (h : st.courses.isArr = true) :
    (fetchCourses st sto resp).state.courses.isArr = true := by
  unfold fetchCourses
  repeat' split
  all_goals first | exact h | exact coerceCourses_isArr _

/-- `handleLogin` never writes the catalog. -/
theorem handleLogin_courses_eq (st : AppState) (sto : Option String)
    (u p : String) (resp : HttpResult) :
    (handleLogin st sto u p resp).state.courses = st.courses := by
  unfold handleLogin
  repeat' split
  all_goals try rfl
  rename_i resp1 ok1 data1 d1 hnn1
  rcases hg : jsObjGet data1 "token" with _ | v
  · rfl
  · rcases v with _ | _ | _ | s1 | _ | _ <;> try rfl
    rcases hd : decodeJwtPayload s1 with _ | u1 <;> simp [hd]

/-- `handleEnrollConfirm` never writes the catalog. -/
theorem handleEnrollConfirm_courses_eq (st : AppState) (sto : Option String)
    (cid : Json) (resp : HttpResult) :
    (handleEnrollConfirm st sto cid resp).state.courses = st.courses := by
  unfold handleEnrollConfirm
  repeat' split
  all_goals rfl

/-- Every client transition keeps the catalog an array. -/
theorem step_courses_isArr (w w' : AppState × Option String) (hs : Step w w')
    (h : w.1.courses.isArr = true) : w'.1.courses.isArr = true := by
  cases hs with
  | init st sto resp => exact initializeSession_courses_isArr st sto resp h
  | fetch st sto resp => exact fetchCourses_courses_isArr st sto resp h
  | login st sto u p resp =>
      show (handleLogin st sto u p resp).state.courses.isArr = true
      rw [handleLogin_courses_eq]
      exact h
  | logout st sto => rfl
  | select st sto course => exact h
  | back st sto => exact h
  | confirmDialog st sto course =>
      show (clickEnroll st course).courses.isArr = true
      unfold clickEnroll
      split <;> exact h
  | enroll st sto cid resp =>
      show (handleEnrollConfirm st sto cid resp).state.courses.isArr = true
      rw [handleEnrollConfirm_courses_eq]
      exact h
  | toRegister st sto => exact h
  | toLogin st sto => exact h

/-- C10: in every state reachable from startup — whatever the persisted
token and the sequence of restorations, refreshes, logins, logouts,
selections, and enrollments, with arbitrary network outcomes — the `courses`
state is an array (possibly empty), never null or any non-array value. -/
theorem c10_courses_always_sequence (sto0 : Option String)
    (w : AppState × Option String) (h : Reachable sto0 w) :
    w.1.courses.isArr = true := by
  have h' : Relation.ReflTransGen Step (initialState, sto0) w := h
  clear h
  induction h' with
  | refl => rfl
  | tail _ hstep ih => exact step_courses_isArr _ _ hstep ih

/-- Witness for C10 at the initial state with no persisted token. -/
theorem c10_courses_always_sequence_witness :
    ((initialState, (none : Option String))).1.courses.isArr = true :=
  c10_courses_always_sequence none (initialState, none) Relation.ReflTransGen.refl
